import Mathlib

/-!
Shallow embedding of the burn fusion core:
  * `src/crates/burn-jit/src/fusion/elemwise/optimization.rs`
    (the `ElementWise` compile/execute typestate and autotuned dispatch), and
  * `src/burn-fusion/src/client/mutex.rs`
    (the `MutexFusionClient` synchronized dispatch layer).

Machine data is modelled with `Nat`; hash maps with association lists; Rust
panics with `Option.none`; lock and drain effects with explicit event traces.
-/

namespace Burn

/-- Shape of a tensor: the list of its dimension sizes. -/
abbrev Shape := List Nat

/-- Process-unique identifier of a logical tensor. -/
abbrev TensorId := Nat

/-- Opaque reference to physical device-resident storage. -/
abbrev Handle := Nat

/-- Device identity. -/
abbrev Device := Nat

/-- Logical tensor metadata as bound in a `Context`: identity and shape. -/
structure TensorDescription where
  id : TensorId
  shape : Shape
deriving DecidableEq, Repr

/-- A recorded trace of one fusable elementwise run: the ordered opcode list
and the boundary input/output tensor descriptions. -/
structure Trace where
  ops : List Nat
  inputs : List TensorDescription
  outputs : List TensorDescription
deriving DecidableEq, Repr

/-- The information produced by `Trace::running()`: boundary inputs and
outputs used at execution time. -/
structure ExecuteInfo where
  inputs : List TensorDescription
  outputs : List TensorDescription
deriving DecidableEq, Repr

/-- The information produced by `Trace::compiling()`, from which kernel
factories are built. -/
structure CompiledInfo where
  ops : List Nat
  inputs : List TensorDescription
  outputs : List TensorDescription
deriving DecidableEq, Repr

/-- `Trace::running()`: the runtime view of the trace. -/
def Trace.running (t : Trace) : ExecuteInfo :=
  ExecuteInfo.mk t.inputs t.outputs

/-- `Trace::compiling()`: the compile-time view of the trace. -/
def Trace.compiling (t : Trace) : CompiledInfo :=
  CompiledInfo.mk t.ops t.inputs t.outputs

/-- Launch configuration (`cubecl::ir::CubeDim`). The numeric content of
`CubeDim::default()` lives in the external `cubecl` crate, outside this
repository's sources; the spec only requires that the alternate fixed
configuration 16x16x1 is a distinct parallel work-group shape, so the
default is kept as its own constructor, distinct from every explicit shape. -/
inductive CubeDim where
  | default : CubeDim
  | explicit (x y z : Nat) : CubeDim
deriving DecidableEq, Repr

/-- A compiled kernel factory (`ElementWiseKernelFactory`): a generated id,
the compiled trace info it was built from, and its launch configuration. -/
structure ElementWiseKernelFactory where
  factory_id : Nat
  info : CompiledInfo
  cube_dim : CubeDim
deriving DecidableEq, Repr

/-- Phase where the kernel should be compiled. -/
structure CompilationPhase where
deriving DecidableEq, Repr

/-- Phase where the kernel should be executed: holds the two compiled kernel
factories (default cube size, custom cube size). -/
structure ExecutionPhase where
  kernel_factory_1 : ElementWiseKernelFactory
  kernel_factory_2 : ElementWiseKernelFactory
deriving DecidableEq, Repr

/-- The fusion unit `ElementWise<R, Phase>`: trace, operation count, device,
and phase payload. -/
structure ElementWise (Phase : Type) where
  trace : Trace
  num_operations : Nat
  device : Device
  phase : Phase
deriving DecidableEq, Repr

/-- The externalized state `ElementWiseState`: exactly the trace and the
operation count, never the compiled factories. -/
structure ElementWiseState where
  trace : Trace
  num_operations : Nat
deriving DecidableEq, Repr

/-- `ElementWise::compile`: consumes a compilation-phase unit and produces an
execution-phase unit holding two kernel factories built from the same
compiled trace info — factory 1 with `CubeDim::default()` and factory 2 with
`CubeDim::new(16, 16, 1)`. The id generator is threaded as `g`: the two
`IdGenerator::generate()` calls yield `g` and `g + 1`. -/
def ElementWise.compile (self : ElementWise CompilationPhase) (g : Nat) :
    ElementWise ExecutionPhase :=
  let info := self.trace.compiling
  let kernel_factory_1 := ElementWiseKernelFactory.mk g info CubeDim.default
  let kernel_factory_2 :=
    ElementWiseKernelFactory.mk (g + 1) info (CubeDim.explicit 16 16 1)
  { trace := self.trace
    num_operations := self.num_operations
    device := self.device
    phase := ExecutionPhase.mk kernel_factory_1 kernel_factory_2 }

/-- `ElementWise::to_state`: externalize exactly {trace, operation count}. -/
def ElementWise.to_state (self : ElementWise ExecutionPhase) : ElementWiseState :=
  ElementWiseState.mk self.trace self.num_operations

/-- `ElementWise::from_state`: re-enter the compilation phase from the
externalized state and immediately re-run `compile()`. -/
def ElementWise.from_state (device : Device) (state : ElementWiseState) (g : Nat) :
    ElementWise ExecutionPhase :=
  (ElementWise.mk state.trace state.num_operations device CompilationPhase.mk).compile g

/-- The execution `Context`: the binding from tensor ids to their bound
descriptions (`context.tensors` hash map), modelled as an association list. -/
structure Context where
  tensors : List (TensorId × TensorDescription)
deriving DecidableEq, Repr

/-- `context.tensors.get(&id)`: association-list lookup. -/
def Context.lookup (context : Context) (id : TensorId) : Option TensorDescription :=
  (context.tensors.find? (fun p => p.1 = id)).map (fun p => p.2)

/-- A created `FusionKernel`: the factory it came from, the runtime trace
info, the context and device it is bound to, and the `stateful` flag (`true`
for a production run, `false` for an autotune trial candidate). -/
structure FusionKernel where
  kernel_set : ElementWiseKernelFactory
  info : ExecuteInfo
  context : Context
  device : Device
  stateful : Bool
deriving DecidableEq, Repr

/-- `FusionKernel::create`. -/
def FusionKernel.create (kernel_set : ElementWiseKernelFactory)
    (info : ExecuteInfo) (context : Context) (device : Device)
    (stateful : Bool) : FusionKernel :=
  FusionKernel.mk kernel_set info context device stateful

/-- The elementwise autotune key payload: operation count and representative
shape (`FusionElemWiseAutotuneKey`). -/
structure FusionElemWiseAutotuneKey where
  num_operations : Nat
  shape : Shape
deriving DecidableEq, Repr

/-- `JitAutotuneKey`: the runtime-wide autotune key (only the elementwise
fusion variant occurs in this core). -/
inductive JitAutotuneKey where
  | FusionElemWise (key : FusionElemWiseAutotuneKey)
deriving DecidableEq, Repr

/-- The process-wide autotune cache of the `LocalTuner`: a map from
(device identity, autotune key) to the winning candidate index. -/
abbrev TunerCache := List ((Device × JitAutotuneKey) × Nat)

/-- `TUNER.autotune_result(&id, &key)`: cache lookup. -/
def autotune_result (cache : TunerCache) (id : Device) (key : JitAutotuneKey) :
    Option Nat :=
  (cache.find? (fun e => e.1 = (id, key))).map (fun e => e.2)

/-- Modelled from the spec: the winner-selection step of the autotune trial
(`cubecl`'s tuner, missing from src/) — given the measured wall latencies of
the candidates in declaration order, select the index of the minimum latency,
ties broken by earliest declaration order. -/
def selectWinnerAux (bestIdx bestLat i : Nat) : List Nat → Nat
  | [] => bestIdx
  | l :: ls =>
    if l < bestLat then selectWinnerAux i l (i + 1) ls
    else selectWinnerAux bestIdx bestLat (i + 1) ls

/-- Modelled from the spec: index of the minimum-latency candidate, earliest
index on ties. -/
def selectWinner : List Nat → Nat
  | [] => 0
  | l :: ls => selectWinnerAux 0 l 1 ls

/-- Modelled from the spec: `tuner.execute(&id, &client, set)` (missing from
src/) — at most one benchmark trial per (device, key): if the cache already
holds a decision it is kept, otherwise the minimum-latency winner among the
submitted candidates is selected and its index stored. -/
def LocalTuner.run_trial (cache : TunerCache) (id : Device)
    (key : JitAutotuneKey) (latencies : List Nat) : TunerCache :=
  match autotune_result cache id key with
  | some _ => cache
  | none => ((id, key), selectWinner latencies) :: cache

/-- `ElementWise::autotune_shape`: the representative shape — the first
output's bound shape when an output exists, else the first input's bound
shape, else the empty shape. The `unwrap()` on the context lookup is
modelled by `Option`: `none` is the panic. -/
def ElementWise.autotune_shape (self : ElementWise ExecutionPhase)
    (context : Context) : Option Shape :=
  let info := self.trace.running
  match info.outputs.head? with
  | some tensor => (context.lookup tensor.id).map (fun d => d.shape)
  | none =>
    match info.inputs.head? with
    | some tensor => (context.lookup tensor.id).map (fun d => d.shape)
    | none => some []

/-- The `JitAutotuneKey` computed by `execute`: operation count paired with
the representative shape. -/
def ElementWise.autotune_key (self : ElementWise ExecutionPhase)
    (context : Context) : Option JitAutotuneKey :=
  (self.autotune_shape context).map
    (fun s => JitAutotuneKey.FusionElemWise (FusionElemWiseAutotuneKey.mk self.num_operations s))

/-- `ElementWise::run_kernel`: dispatch on the winning index read from the
cache — factory 1 for index 0, factory 2 for index 1, and a panic
(`"Should be 0 or 1"`) for every other index, modelled as `none`. The
production kernel is created with `stateful = true` and executed. -/
def ElementWise.run_kernel (self : ElementWise ExecutionPhase)
    (context : Context) (fastest_set_index : Nat) : Option FusionKernel :=
  let info := self.trace.running
  match fastest_set_index with
  | 0 => some (FusionKernel.create self.phase.kernel_factory_1 info context self.device true)
  | 1 => some (FusionKernel.create self.phase.kernel_factory_2 info context self.device true)
  | _ => none

/-- `ElementWise::run_autotune`: build the three trial candidates in
declaration order — factory 1, factory 2, and factory 1 again (the
default-repeated variant) — each with `stateful = false`. -/
def ElementWise.run_autotune (self : ElementWise ExecutionPhase)
    (context : Context) : List FusionKernel :=
  let info := self.trace.running
  [FusionKernel.create self.phase.kernel_factory_1 info context self.device false,
   FusionKernel.create self.phase.kernel_factory_2 info context self.device false,
   FusionKernel.create self.phase.kernel_factory_1 info context self.device false]

/-- The observable outcome of one `execute` call: either a single production
kernel launch (cache hit) or a benchmark trial submitted with the given key
and candidate list (cache miss). -/
inductive ExecuteOutcome where
  | production (kernel : FusionKernel)
  | trial (key : JitAutotuneKey) (candidates : List FusionKernel)
deriving DecidableEq, Repr

/-- `ElementWise::execute`: compute the autotune key, consult the tuner cache
for (device identity, key); on a hit run the stored winner through
`run_kernel`, on a miss submit the three-candidate benchmark trial. `none`
models a panic (a failed context lookup or an out-of-range stored index). -/
def ElementWise.execute (self : ElementWise ExecutionPhase) (context : Context)
    (cache : TunerCache) : Option ExecuteOutcome :=
  match self.autotune_key context with
  | none => none
  | some key =>
    let id := self.device
    match autotune_result cache id key with
    | some index => (self.run_kernel context index).map ExecuteOutcome.production
    | none => some (ExecuteOutcome.trial key (self.run_autotune context))

/-- A concrete two-operation trace with one boundary input and one boundary
output, used to evaluate the dispatch paths. -/
def trace0 : Trace :=
  Trace.mk [0, 1] [TensorDescription.mk 0 [2, 2]] [TensorDescription.mk 1 [2, 2]]

/-- A concrete execution-phase unit on device 0 obtained by compiling
`trace0`. -/
def u0 : ElementWise ExecutionPhase :=
  (ElementWise.mk trace0 2 0 CompilationPhase.mk).compile 0

/-- A concrete context binding both boundary tensors of `trace0`. -/
def ctx0 : Context :=
  Context.mk [(0, TensorDescription.mk 0 [2, 2]), (1, TensorDescription.mk 1 [2, 2])]

/-- The autotune key of `u0` in `ctx0`. -/
def key0 : JitAutotuneKey :=
  JitAutotuneKey.FusionElemWise (FusionElemWiseAutotuneKey.mk 2 [2, 2])

/-- A degenerate execution-phase unit whose trace has no inputs and no
outputs. -/
def uDeg : ElementWise ExecutionPhase :=
  (ElementWise.mk (Trace.mk [] [] []) 0 0 CompilationPhase.mk).compile 0

/-- A queued operation description. Its payload is modelled from the spec:
executing it materializes a result handle for `outId` and launches kernel
`kernelId`. -/
structure OperationDesc where
  outId : TensorId
  outHandle : Handle
  kernelId : Nat
deriving DecidableEq, Repr

/-- A kernel invocation observed while draining, identified by its kernel. -/
abbrev KernelInvocation := Nat

/-- Modelled from the spec: `FusionServer` (the server type itself is not
under src/; only its callers are) — owns the handle table, the pending
operation stream, a fresh-id counter backing `create_empty_handle`, and the
device identity. -/
structure FusionServer where
  counter : Nat
  handles : List (TensorId × Handle)
  pending : List OperationDesc
  device : Device
deriving DecidableEq, Repr

/-- Modelled from the spec: `FusionServer::new` — a fresh server for the
device, with an empty handle table and an empty stream. -/
def FusionServer.new (device : Device) : FusionServer :=
  FusionServer.mk 0 [] [] device

/-- Handle table lookup for a tensor id. -/
def FusionServer.lookupHandle (s : FusionServer) (id : TensorId) : Option Handle :=
  (s.handles.find? (fun p => p.1 = id)).map (fun p => p.2)

/-- Modelled from the spec: `create_empty_handle` — allocates a fresh
`TensorId` in the handle table without binding physical storage yet. -/
def FusionServer.create_empty_handle (s : FusionServer) : TensorId × FusionServer :=
  (s.counter, { s with counter := s.counter + 1 })

/-- Modelled from the spec: executing one queued operation during a drain —
materialize its result into the handle table and launch its kernel. -/
def FusionServer.execOp (s : FusionServer) (op : OperationDesc) :
    FusionServer × KernelInvocation :=
  ({ s with handles := (op.outId, op.outHandle) :: s.handles }, op.kernelId)

/-- Modelled from the spec: run a list of queued operations in queue order,
collecting the kernel invocations they launch. -/
def FusionServer.drainOps (s : FusionServer) :
    List OperationDesc → FusionServer × List KernelInvocation
  | [] => (s, [])
  | op :: rest =>
    let step := s.execOp op
    let tail := step.1.drainOps rest
    (tail.1, step.2 :: tail.2)

/-- Modelled from the spec: `FusionServer::drain_streams` — flush the
pending stream, executing every queued operation in queue order. -/
def FusionServer.drain_streams (s : FusionServer) :
    FusionServer × List KernelInvocation :=
  ({ s with pending := [] }).drainOps s.pending

/-- Index of a server inside the world of live servers (the identity of an
`Arc<Mutex<FusionServer>>` allocation). -/
abbrev ServerId := Nat

/-- The world of live servers: one entry per constructed `FusionServer`. -/
structure World where
  servers : List FusionServer
deriving DecidableEq, Repr

/-- Dereference a server id. -/
def World.getServer (w : World) (i : ServerId) : Option FusionServer :=
  w.servers[i]?

/-- Write back a server under its id. -/
def World.setServer (w : World) (i : ServerId) (s : FusionServer) : World :=
  World.mk (w.servers.set i s)

/-- `MutexFusionClient`: a shared pointer to a server plus the device. -/
structure MutexFusionClient where
  server : ServerId
  device : Device
deriving DecidableEq, Repr

/-- `Clone for MutexFusionClient`: clone the server pointer and the device;
no new server is constructed. -/
def MutexFusionClient.clone (self : MutexFusionClient) : MutexFusionClient :=
  MutexFusionClient.mk self.server self.device

/-- `MutexFusionClient::new`: construct a fresh `FusionServer` for the
device and a client pointing at it. -/
def MutexFusionClient.new (device : Device) (w : World) :
    World × MutexFusionClient :=
  (World.mk (w.servers ++ [FusionServer.new device]),
   MutexFusionClient.mk w.servers.length device)

/-- `MutexFusionClient::drain`: lock the server and drain its streams.
`none` models a dangling server pointer (unreachable in the real program). -/
def MutexFusionClient.drain (self : MutexFusionClient) (w : World) :
    Option (World × List KernelInvocation) :=
  match w.getServer self.server with
  | none => none
  | some s =>
    let res := s.drain_streams
    some (w.setServer self.server res.1, res.2)

/-- A `FusionTensor`: tensor id, shape, and the client it was created by. -/
structure FusionTensor where
  id : TensorId
  shape : Shape
  client : MutexFusionClient
deriving DecidableEq, Repr

/-- `MutexFusionClient::register_tensor`: lock the server, allocate a fresh
id, register the externally provided handle under it, release the lock, and
return a `FusionTensor` with that id, the given shape, and a clone of the
calling client. -/
def MutexFusionClient.register_tensor (self : MutexFusionClient)
    (handle : Handle) (shape : Shape) (w : World) :
    Option (World × FusionTensor) :=
  match w.getServer self.server with
  | none => none
  | some server =>
    let fresh := server.create_empty_handle
    let server2 := { fresh.2 with handles := (fresh.1, handle) :: fresh.2.handles }
    some (w.setServer self.server server2,
      FusionTensor.mk fresh.1 shape self.clone)

/-- Observable synchronization and transfer events of a client call. -/
inductive Event where
  | lockServer (s : ServerId)
  | unlockServer (s : ServerId)
  | drainStreams (s : ServerId)
  | changeServer (src dst : ServerId)
  | createEmptyHandle (s : ServerId)
  | registerHandle (s : ServerId)
deriving DecidableEq, Repr

/-- Event trace of `change_client_float`: lock the destination
(`client.server.lock()`), then the source (`self.server.lock()`), drain the
source streams, move the handle via `change_server_float`, then drop the
destination guard and the source guard. -/
def MutexFusionClient.change_client_float_events
    (self client : MutexFusionClient) : List Event :=
  [Event.lockServer client.server,
   Event.lockServer self.server,
   Event.drainStreams self.server,
   Event.changeServer self.server client.server,
   Event.unlockServer client.server,
   Event.unlockServer self.server]

/-- Event trace of `change_client_int`: same shape as the float variant. -/
def MutexFusionClient.change_client_int_events
    (self client : MutexFusionClient) : List Event :=
  [Event.lockServer client.server,
   Event.lockServer self.server,
   Event.drainStreams self.server,
   Event.changeServer self.server client.server,
   Event.unlockServer client.server,
   Event.unlockServer self.server]

/-- Event trace of `change_client_bool`: same shape as the float variant. -/
def MutexFusionClient.change_client_bool_events
    (self client : MutexFusionClient) : List Event :=
  [Event.lockServer client.server,
   Event.lockServer self.server,
   Event.drainStreams self.server,
   Event.changeServer self.server client.server,
   Event.unlockServer client.server,
   Event.unlockServer self.server]

/-- Event trace of `register_tensor`: the handle registration happens while
the server lock is held. -/
def MutexFusionClient.register_tensor_events
    (self : MutexFusionClient) : List Event :=
  [Event.lockServer self.server,
   Event.createEmptyHandle self.server,
   Event.registerHandle self.server,
   Event.unlockServer self.server]

/-- The server ids locked by a trace, in acquisition order. -/
def lockTargets (es : List Event) : List ServerId :=
  es.filterMap (fun e =>
    match e with
    | Event.lockServer s => some s
    | _ => none)

/-- The lock of server `s` has been acquired and not released within the
first `k` events. -/
def lockedBefore (es : List Event) (k : Nat) (s : ServerId) : Prop :=
  Event.lockServer s ∈ es.take k ∧ Event.unlockServer s ∉ es.take k

/-- Client on server 0 of device 0. -/
def clientA : MutexFusionClient :=
  MutexFusionClient.mk 0 0

/-- Client on server 1 of device 1. -/
def clientB : MutexFusionClient :=
  MutexFusionClient.mk 1 1

end Burn

namespace Burn

/-- Claim C7: `compile()` preserves the trace, device and operation count, and
produces exactly two kernel factories built from the same compiled trace
info: factory 1 with the default launch configuration and factory 2 with the
fixed alternate configuration 16x16x1, a distinct work-group shape. -/
theorem compile_two_factories (u : ElementWise CompilationPhase) (g : Nat) :
    (u.compile g).trace = u.trace ∧
    (u.compile g).device = u.device ∧
    (u.compile g).num_operations = u.num_operations ∧
    (u.compile g).phase.kernel_factory_1.info = u.trace.compiling ∧
    (u.compile g).phase.kernel_factory_2.info = u.trace.compiling ∧
    (u.compile g).phase.kernel_factory_1.cube_dim = CubeDim.default ∧
    (u.compile g).phase.kernel_factory_2.cube_dim = CubeDim.explicit 16 16 1 ∧
    (u.compile g).phase.kernel_factory_1.cube_dim ≠
      (u.compile g).phase.kernel_factory_2.cube_dim := by
  refine ⟨rfl, rfl, rfl, rfl, rfl, rfl, rfl, ?_⟩
  simp [ElementWise.compile]

/-- Claim C6: `to_state` exports exactly the pair {trace, operation count}
(no kernel factories are part of `ElementWiseState`), and `from_state`
re-enters the compilation phase, re-runs `compile()`, and yields an
execution-phase unit whose trace and operation count equal the original's. -/
theorem to_state_from_state_roundtrip (u : ElementWise ExecutionPhase)
    (d : Device) (g : Nat) :
    u.to_state = ElementWiseState.mk u.trace u.num_operations ∧
    ElementWise.from_state d u.to_state g =
      (ElementWise.mk u.trace u.num_operations d CompilationPhase.mk).compile g ∧
    (ElementWise.from_state d u.to_state g).trace = u.trace ∧
    (ElementWise.from_state d u.to_state g).num_operations = u.num_operations := by
  exact ⟨rfl, rfl, rfl, rfl⟩

/-- Claim C1: `execute` consults the tuner cache for (device, key). On a
miss it submits a benchmark trial of exactly three candidates in declaration
order — factory 1, factory 2, factory 1 again — all non-stateful, and the
spec-modelled tuner stores the minimum-latency winner's index. On a hit with
stored index 0 or 1 it runs exactly one production kernel of the winning
factory; but a stored index 2 (the default-repeated candidate, a storable
winner of the trial) makes the hit path panic instead of running factory 1,
so the claim's hit behaviour fails on the code at that input. -/
theorem execute_autotune_dispatch_eval :
    u0.execute ctx0 [] =
      some (ExecuteOutcome.trial key0 (u0.run_autotune ctx0)) ∧
    (u0.run_autotune ctx0).map FusionKernel.kernel_set =
      [u0.phase.kernel_factory_1, u0.phase.kernel_factory_2, u0.phase.kernel_factory_1] ∧
    (u0.run_autotune ctx0).map FusionKernel.stateful = [false, false, false] ∧
    autotune_result (LocalTuner.run_trial [] 0 key0 [30, 20, 10]) 0 key0 = some 2 ∧
    u0.execute ctx0 [((0, key0), 0)] =
      some (ExecuteOutcome.production
        (FusionKernel.create u0.phase.kernel_factory_1 trace0.running ctx0 0 true)) ∧
    u0.execute ctx0 [((0, key0), 1)] =
      some (ExecuteOutcome.production
        (FusionKernel.create u0.phase.kernel_factory_2 trace0.running ctx0 0 true)) ∧
    u0.execute ctx0 [((0, key0), 2)] = none := by
  refine ⟨by decide, by decide, by decide, by decide, by decide, by decide, by decide⟩

/-- Claim C2: `run_kernel` dispatches without a panic exactly for winning
indices 0 and 1, and panics for every other index — including index 2, the
default-repeated candidate of the three-candidate trial, which the spec
counts as part of the known candidate set and which `selectWinner` can
legitimately store. -/
theorem run_kernel_index_range_eval :
    (u0.run_kernel ctx0 0).isSome = true ∧
    (u0.run_kernel ctx0 1).isSome = true ∧
    u0.run_kernel ctx0 2 = none ∧
    (∀ i : Nat, u0.run_kernel ctx0 (i + 2) = none) ∧
    selectWinner [30, 20, 10] = 2 := by
  refine ⟨by decide, by decide, by decide, fun i => rfl, by decide⟩

/-- Claim C3: the autotune key computed by `execute` is the pair (operation
count, representative shape), where the representative shape is the first
output's bound shape when an output exists, else the first input's bound
shape, else the empty shape; the degenerate trace with no inputs and no
outputs yields the empty-shape key without panicking, and its execution on
an empty cache proceeds to a normal trial. -/
theorem autotune_key_representative_shape (u : ElementWise ExecutionPhase)
    (ctx : Context) :
    (∀ t rest d, u.trace.outputs = t :: rest → ctx.lookup t.id = some d →
      u.autotune_shape ctx = some d.shape ∧
      u.autotune_key ctx =
        some (JitAutotuneKey.FusionElemWise
          (FusionElemWiseAutotuneKey.mk u.num_operations d.shape))) ∧
    (∀ t rest d, u.trace.outputs = [] → u.trace.inputs = t :: rest →
      ctx.lookup t.id = some d →
      u.autotune_shape ctx = some d.shape ∧
      u.autotune_key ctx =
        some (JitAutotuneKey.FusionElemWise
          (FusionElemWiseAutotuneKey.mk u.num_operations d.shape))) ∧
    (u.trace.outputs = [] → u.trace.inputs = [] →
      u.autotune_shape ctx = some [] ∧
      u.autotune_key ctx =
        some (JitAutotuneKey.FusionElemWise
          (FusionElemWiseAutotuneKey.mk u.num_operations [])) ∧
      u.execute ctx [] =
        some (ExecuteOutcome.trial
          (JitAutotuneKey.FusionElemWise
            (FusionElemWiseAutotuneKey.mk u.num_operations []))
          (u.run_autotune ctx))) := by
  refine ⟨?_, ?_, ?_⟩
  · intro t rest d ho hl
    constructor
    · simp [ElementWise.autotune_shape, Trace.running, ho, hl]
    · simp [ElementWise.autotune_key, ElementWise.autotune_shape, Trace.running, ho, hl]
  · intro t rest d ho hi hl
    constructor
    · simp [ElementWise.autotune_shape, Trace.running, ho, hi, hl]
    · simp [ElementWise.autotune_key, ElementWise.autotune_shape, Trace.running, ho, hi, hl]
  · intro ho hi
    refine ⟨?_, ?_, ?_⟩
    · simp [ElementWise.autotune_shape, Trace.running, ho, hi]
    · simp [ElementWise.autotune_key, ElementWise.autotune_shape, Trace.running, ho, hi]
    · simp [ElementWise.execute, ElementWise.autotune_key, ElementWise.autotune_shape,
        Trace.running, ho, hi, autotune_result]

/-- Claim C3 witness: the representative-shape rule evaluated on concrete
units — `u0` (first output bound in `ctx0`) and `uDeg` (degenerate trace). -/
theorem autotune_key_representative_shape_witness :
    u0.autotune_key ctx0 = some key0 ∧
    uDeg.autotune_key (Context.mk []) =
      some (JitAutotuneKey.FusionElemWise (FusionElemWiseAutotuneKey.mk 0 [])) := by
  constructor
  · exact ((autotune_key_representative_shape u0 ctx0).1
      (TensorDescription.mk 1 [2, 2]) [] (TensorDescription.mk 1 [2, 2])
      (by decide) (by decide)).2
  · exact (((autotune_key_representative_shape uDeg (Context.mk [])).2.2
      (by decide) (by decide)).2).1

/-- Setting a list entry to the value it already holds leaves the list
unchanged. -/
theorem listSet_self {α : Type} :
    ∀ (l : List α) (i : Nat) (a : α), l[i]? = some a → l.set i a = l
  | [], _, _, h => by simp at h
  | x :: xs, 0, a, h => by
    simp at h
    simp [h]
  | x :: xs, i + 1, a, h => by
    simp at h
    simp [listSet_self xs i a h]

/-- Reading back a just-set list entry. -/
theorem listGet_set_self {α : Type} :
    ∀ (l : List α) (i : Nat) (a b : α), l[i]? = some b →
      (l.set i a)[i]? = some a
  | [], _, _, _, h => by simp at h
  | x :: xs, 0, a, b, _ => by simp
  | x :: xs, i + 1, a, b, h => by
    simp at h
    simpa using listGet_set_self xs i a b h

/-- Reading a list one past its end yields nothing. -/
theorem listGet_length_none {α : Type} : ∀ l : List α, l[l.length]? = none
  | [] => rfl
  | x :: xs => by simp

/-- Reading an appended singleton: the new element sits exactly at the old
length. -/
theorem listGet_append_single {α : Type} :
    ∀ (l : List α) (a : α) (i : Nat),
      (l ++ [a])[i]? = if i = l.length then some a else l[i]?
  | [], a, 0 => rfl
  | [], a, i + 1 => by simp
  | x :: xs, a, 0 => by simp
  | x :: xs, a, i + 1 => by
    have ih := listGet_append_single xs a i
    by_cases h : i = xs.length
    · simp [h]
    · have h2 : ¬(i + 1 = xs.length + 1) := by omega
      simpa [h, h2] using ih

/-- An association list whose keys are all below `c` has no entry at `c`. -/
theorem assocFind_none {c : Nat} (l : List (TensorId × Handle))
    (h : ∀ p ∈ l, p.1 < c) : l.find? (fun p => p.1 = c) = none := by
  rw [List.find?_eq_none]
  intro x hx
  simp
  exact Nat.ne_of_lt (h x hx)

/-- Claim C4: the lock acquisition order of `change_client_{float,int,bool}`
is role-dependent — always destination first, then source — so the two
directions of a transfer between servers 0 and 1 acquire the locks in
opposite orders: after each thread takes its first lock, each one's next
request is the lock the other holds (circular wait), contradicting the
claimed fixed global order. The release side does hold: both locks are
dropped before the call returns. -/
theorem change_client_lock_order_role_dependent :
    lockTargets (clientA.change_client_float_events clientB) = [1, 0] ∧
    lockTargets (clientB.change_client_float_events clientA) = [0, 1] ∧
    lockTargets (clientA.change_client_int_events clientB) = [1, 0] ∧
    lockTargets (clientB.change_client_int_events clientA) = [0, 1] ∧
    lockTargets (clientA.change_client_bool_events clientB) = [1, 0] ∧
    lockTargets (clientB.change_client_bool_events clientA) = [0, 1] ∧
    lockTargets (clientA.change_client_float_events clientB) ≠
      lockTargets (clientB.change_client_float_events clientA) ∧
    clientA.server ≠ clientB.server ∧
    (clientA.change_client_float_events clientB).head? =
      some (Event.lockServer clientB.server) ∧
    (clientB.change_client_float_events clientA).head? =
      some (Event.lockServer clientA.server) ∧
    (clientA.change_client_float_events clientB).get? 1 =
      some (Event.lockServer clientA.server) ∧
    (clientB.change_client_float_events clientA).get? 1 =
      some (Event.lockServer clientB.server) ∧
    (clientA.change_client_float_events clientB).drop 4 =
      [Event.unlockServer clientB.server, Event.unlockServer clientA.server] := by
  decide

/-- The drain-before-move contract satisfied by one transfer event trace:
the source drain sits at position 2 with both locks held, strictly before
the handle move at position 3, which also runs with both locks held. -/
def drainBeforeMove (self client : MutexFusionClient) (es : List Event) : Prop :=
  es.get? 2 = some (Event.drainStreams self.server) ∧
  es.get? 3 = some (Event.changeServer self.server client.server) ∧
  lockedBefore es 2 self.server ∧
  lockedBefore es 2 client.server ∧
  lockedBefore es 3 self.server ∧
  lockedBefore es 3 client.server

/-- Any trace of the common transfer shape satisfies the drain-before-move
contract. -/
theorem change_events_drain_before_move (self client : MutexFusionClient)
    (es : List Event)
    (h : es = [Event.lockServer client.server, Event.lockServer self.server,
      Event.drainStreams self.server,
      Event.changeServer self.server client.server,
      Event.unlockServer client.server, Event.unlockServer self.server]) :
    drainBeforeMove self client es := by
  subst h
  refine ⟨rfl, rfl, ?_, ?_, ?_, ?_⟩ <;> simp [lockedBefore]

/-- Claim C5: in every `change_client_{float,int,bool}` call, the source
server's streams are drained to completion while both server locks are held,
strictly before the tensor's handle is moved to the destination server. -/
theorem change_client_drain_before_transfer (self client : MutexFusionClient) :
    drainBeforeMove self client (self.change_client_float_events client) ∧
    drainBeforeMove self client (self.change_client_int_events client) ∧
    drainBeforeMove self client (self.change_client_bool_events client) :=
  ⟨change_events_drain_before_move self client _ rfl,
   change_events_drain_before_move self client _ rfl,
   change_events_drain_before_move self client _ rfl⟩

/-- Claim C8: draining a client whose server has zero pending operations
leaves the world (handle table, streams, counters, every server) unchanged
and triggers no kernel invocation. -/
theorem drain_empty_noop (self : MutexFusionClient) (w : World)
    (s : FusionServer) (h1 : w.getServer self.server = some s)
    (h2 : s.pending = []) :
    self.drain w = some (w, []) := by
  have hs : s.drain_streams = (s, []) := by
    cases s with
    | mk c hh p d =>
      simp at h2
      subst h2
      rfl
  have hset : w.setServer self.server s = w := by
    cases w with
    | mk servers =>
      have h1x : servers[self.server]? = some s := by
        simpa [World.getServer] using h1
      simp [World.setServer, listSet_self servers self.server s h1x]
  simp [MutexFusionClient.drain, h1, hs, hset]

/-- Claim C8 witness: draining a concrete one-server world with an empty
stream returns the world unchanged and no invocations. -/
theorem drain_empty_noop_witness :
    (MutexFusionClient.mk 0 0).drain (World.mk [FusionServer.new 0]) =
      some (World.mk [FusionServer.new 0], []) :=
  drain_empty_noop (MutexFusionClient.mk 0 0) (World.mk [FusionServer.new 0])
    (FusionServer.new 0) rfl rfl

/-- Claim C9: `register_tensor(handle, shape)` allocates a fresh `TensorId`
(one the server's handle table did not resolve before the call), registers
the externally provided handle under it while the server lock is held, and
returns a `FusionTensor` carrying that id, exactly the given shape, and a
clone of the calling client; the server's pending stream and device are
untouched. -/
theorem register_tensor_fresh_binding (self : MutexFusionClient)
    (h : Handle) (sh : Shape) (w : World) (server : FusionServer)
    (hget : w.getServer self.server = some server)
    (hwf : ∀ p ∈ server.handles, p.1 < server.counter) :
    ∃ w1 t, self.register_tensor h sh w = some (w1, t) ∧
      t.id = server.counter ∧
      server.lookupHandle t.id = none ∧
      t.shape = sh ∧
      t.client = self.clone ∧
      (∃ server1, w1.getServer self.server = some server1 ∧
        server1.lookupHandle t.id = some h ∧
        server1.pending = server.pending ∧
        server1.device = server.device) ∧
      lockedBefore self.register_tensor_events 3 self.server ∧
      self.register_tensor_events.get? 2 =
        some (Event.registerHandle self.server) := by
  have hrun : self.register_tensor h sh w =
      some (w.setServer self.server
          { server with
            counter := server.counter + 1
            handles := (server.counter, h) :: server.handles },
        FusionTensor.mk server.counter sh self.clone) := by
    simp [MutexFusionClient.register_tensor, hget, FusionServer.create_empty_handle]
  have hF : server.lookupHandle server.counter = none := by
    simp [FusionServer.lookupHandle, assocFind_none server.handles hwf]
  have hW : (w.setServer self.server
        { server with
          counter := server.counter + 1
          handles := (server.counter, h) :: server.handles }).getServer self.server =
      some { server with
        counter := server.counter + 1
        handles := (server.counter, h) :: server.handles } := by
    cases w with
    | mk servers =>
      have hgx : servers[self.server]? = some server := by
        simpa [World.getServer] using hget
      simpa [World.setServer, World.getServer] using
        listGet_set_self servers self.server _ server hgx
  have hL : ({ server with
      counter := server.counter + 1
      handles := (server.counter, h) :: server.handles } :
        FusionServer).lookupHandle server.counter = some h := by
    simp [FusionServer.lookupHandle, List.find?]
  have hE : lockedBefore self.register_tensor_events 3 self.server := by
    simp [lockedBefore, MutexFusionClient.register_tensor_events]
  exact ⟨_, _, hrun, rfl, hF, rfl, rfl, ⟨_, hW, hL, rfl, rfl⟩, hE, rfl⟩

/-- Claim C9 witness: registering handle 7 with shape [2, 3] on a concrete
one-server world binds a fresh id 0 to handle 7 and returns the tensor with
that id, the shape, and the calling client. -/
theorem register_tensor_fresh_binding_witness :
    ∃ w1 t, (MutexFusionClient.mk 0 5).register_tensor 7 [2, 3]
        (World.mk [FusionServer.new 5]) = some (w1, t) ∧
      t.id = 0 ∧ t.shape = [2, 3] ∧
      t.client = MutexFusionClient.mk 0 5 := by
  obtain ⟨w1, t, hrun, hid, _, hsh, hcl, _⟩ :=
    register_tensor_fresh_binding (MutexFusionClient.mk 0 5) 7 [2, 3]
      (World.mk [FusionServer.new 5]) (FusionServer.new 5) rfl
      (by intro p hp; simp [FusionServer.new] at hp)
  exact ⟨w1, t, hrun, hid, hsh, hcl⟩

/-- Claim C10: cloning a client yields a client with the same server pointer
and an equal device — it is the very same dispatch endpoint, constructing no
new server — whereas `MutexFusionClient::new` appends one fresh server to
the world, a server that did not exist before, and points the new client at
it; all previously existing servers are untouched. -/
theorem clone_shares_server_new_allocates (self : MutexFusionClient)
    (d : Device) (w : World) :
    self.clone.server = self.server ∧
    self.clone.device = self.device ∧
    self.clone = self ∧
    (∀ w1 : World, self.clone.drain w1 = self.drain w1) ∧
    (MutexFusionClient.new d w).2.device = d ∧
    w.getServer (MutexFusionClient.new d w).2.server = none ∧
    (MutexFusionClient.new d w).1.getServer (MutexFusionClient.new d w).2.server =
      some (FusionServer.new d) ∧
    (MutexFusionClient.new d w).1.servers.length = w.servers.length + 1 ∧
    (∀ i : ServerId, (MutexFusionClient.new d w).1.getServer i =
      if i = w.servers.length then some (FusionServer.new d)
      else w.getServer i) := by
  refine ⟨rfl, rfl, rfl, fun w1 => rfl, rfl, ?_, ?_, by simp [MutexFusionClient.new], ?_⟩
  · exact listGet_length_none w.servers
  · exact (listGet_append_single w.servers (FusionServer.new d) w.servers.length).trans
      (if_pos rfl)
  · intro i
    exact listGet_append_single w.servers (FusionServer.new d) i

end Burn
